import Mathlib

/-!
Shallow embedding of the Bluesky OAuth client core
(PKCE generation, DPoP proof construction, SSRF-safe URL validation,
fixed-window rate limiting, and the token lifecycle of the
`BlueskyOAuthClient` session object), with theorems settling the
specification claims.

Conventions:
* JavaScript numbers standing for counters, byte values and millisecond
  timestamps are modelled as `Nat` (all relevant quantities are
  non-negative and far below 2^53); 32-bit coercions (`>>> 0`) are made
  explicit with `% 2 ^ 32`.
* JavaScript `null`-able fields are `Option`; JS truthiness of the values
  that actually flow through the code (`string | null`, `number | null`,
  `Promise`) is made explicit by `jsTruthy*` helpers.
* Fallible operations return `Except`; HTTP round trips are parameters of
  type `Except String α` supplied by the environment, so the behaviour of a
  function is specified for every possible network outcome.
* The ES256 signing primitive is modelled symbolically (an ideal
  signature is a constructor packaging the signing key and the signed
  message), the standard symbolic-cryptography treatment: equality of
  symbolic signatures coincides with equality of (key, message) pairs.
-/

deriving instance DecidableEq for Except

namespace BlueskyOAuth

/-! ## DPoP proofs (`src/dpop.ts`) -/

/-- Payload of a DPoP proof JWT, as assembled by `generateDpopProof`:
`{htu: url, htm: method, jti: uuidv4(), iat: <issue time>}`. -/
structure DpopPayload where
  htu : String
  htm : String
  jti : String
  iat : Nat
deriving DecidableEq, Repr

/-- Protected header of a DPoP proof JWT:
`{alg: ES256, typ: dpop+jwt, jwk: jwkPublic}`. -/
structure DpopHeader where
  alg : String
  typ : String
  jwk : String
deriving DecidableEq, Repr

/-- Symbolic ES256 signature: an ideal signature determined by the signing
key and the signed (header, payload) message. -/
structure Sig where
  key : String
  signedHeader : DpopHeader
  signedPayload : DpopPayload
deriving DecidableEq, Repr

/-- A compact DPoP proof JWT: header, payload, and signature over both. -/
structure DpopProof where
  header : DpopHeader
  payload : DpopPayload
  signature : Sig
deriving DecidableEq, Repr

/-- Model of the `new SignJWT({...}).setProtectedHeader({...}).setIssuedAt().sign(privateKey)`
chain of `generateDpopProof` in `src/dpop.ts`. The random `jti` (from
`uuidv4()`) and the issue time `iat` (from `setIssuedAt()`) are passed in
as parameters standing for the ambient randomness and clock. The payload
carries the `url` argument unchanged as `htu`. -/
def generateDpopProof (method url : String) (privateKey jwkPublic : String)
    (jti : String) (iat : Nat) : DpopProof :=
  let header : DpopHeader := { alg := "ES256", typ := "dpop+jwt", jwk := jwkPublic }
  let payload : DpopPayload := { htu := url, htm := method, jti := jti, iat := iat }
  { header := header, payload := payload,
    signature := { key := privateKey, signedHeader := header, signedPayload := payload } }

/-- Modelled from the spec (refinement target for C1, not present in the
code): the target URL "restricted to scheme+host+path, with any query
string and fragment removed" — the prefix of the URL up to the first `?`
or `#`. -/
def spec_stripQueryFragment (url : String) : String :=
  String.mk (url.toList.takeWhile (fun c => c ≠ '?' ∧ c ≠ '#'))

/-! ## PKCE (`src/pkce.ts`) -/

/-- Lower-case hexadecimal digits, as produced by the Node
`Buffer.toString(hex)` rendering. -/
def hexAlphabet : List Char := "0123456789abcdef".toList

/-- One byte rendered as two lower-case hex digits. -/
def byteToHex (b : Nat) : List Char :=
  [hexAlphabet.getD (b / 16 % 16) 'x', hexAlphabet.getD (b % 16) 'x']

/-- Model of `buf.toString(hex)` on a byte sequence. -/
def toHexString (bytes : List Nat) : String :=
  String.mk (bytes.flatMap byteToHex)

/-- First draft of `generateCodeVerifier` in `src/pkce.ts` (lines 3–5):
`crypto.randomBytes(32).toString(hex)`. The 32 random bytes are the
parameter. -/
def generateCodeVerifierHex (randomBytes : List Nat) : String :=
  toHexString randomBytes

/-- The base64url alphabet (RFC 4648 §5), as used by the Node
`Buffer.toString(base64url)` rendering. -/
def b64urlAlphabet : List Char :=
  "ABCDEFGHIJKLMNOPQRSTUVWXYZabcdefghijklmnopqrstuvwxyz0123456789-_".toList

/-- Index into the base64url alphabet. -/
def b64urlChar (n : Nat) : Char := b64urlAlphabet.getD n 'A'

/-- Unpadded base64url encoding of a byte sequence, as produced by the
Node `Buffer.toString(base64url)` rendering (no `=` padding). -/
def b64urlEncode : List Nat → List Char
  | [] => []
  | [b1] => [b64urlChar (b1 / 4), b64urlChar (b1 % 4 * 16)]
  | [b1, b2] =>
      [b64urlChar (b1 / 4), b64urlChar (b1 % 4 * 16 + b2 / 16), b64urlChar (b2 % 16 * 4)]
  | b1 :: b2 :: b3 :: rest =>
      b64urlChar (b1 / 4) :: b64urlChar (b1 % 4 * 16 + b2 / 16) ::
      b64urlChar (b2 % 16 * 4 + b3 / 64) :: b64urlChar (b3 % 64) :: b64urlEncode rest

/-- Second draft of `generateCodeVerifier` in `src/pkce.ts` (lines 16–22):
`crypto.randomBytes(32).toString(base64url).slice(0, 128)`. The 32
random bytes are the parameter. -/
def generateCodeVerifier (randomBytes : List Nat) : String :=
  String.mk ((b64urlEncode randomBytes).take 128)

/-- The unreserved character set of RFC 3986 §2.3, the alphabet PKCE
permits for code verifiers: ALPHA / DIGIT / `-` / `.` / `_` / `~`. -/
def isUnreservedChar (c : Char) : Bool :=
  c.isAlpha || c.isDigit || c = '-' || c = '.' || c = '_' || c = '~'

/-! ## Fixed-window rate limiter (`security.ts`, in-memory draft) -/

/-- Structure `RateLimitOptions` from `src/types.ts`. -/
structure RateLimitOptions where
  maxRequests : Nat
  windowMs : Nat
deriving DecidableEq, Repr

/-- One entry of `rateLimitStore`: `{count, firstRequest}`. -/
structure RateEntry where
  count : Nat
  firstRequest : Nat
deriving DecidableEq, Repr

/-- The global `rateLimitStore` object, modelled as an association list
keyed by the rate-limit key. -/
abbrev RateStore := List (String × RateEntry)

/-- Property lookup `rateLimitStore[key]`. -/
def RateStore.lookup (store : RateStore) (key : String) : Option RateEntry :=
  (store.find? (fun p => p.1 = key)).map Prod.snd

/-- Property assignment `rateLimitStore[key] = e`. -/
def RateStore.set (store : RateStore) (key : String) (e : RateEntry) : RateStore :=
  match store with
  | [] => [(key, e)]
  | (k, v) :: rest =>
      if k = key then (k, e) :: rest else (k, v) :: RateStore.set rest key e

/-- The in-memory `checkRateLimit` (fixed-window counter): returns the
admit/deny boolean and the updated store. `currentTime` stands for
`Date.now()`. -/
def checkRateLimit (store : RateStore) (key : String) (options : RateLimitOptions)
    (currentTime : Nat) : Bool × RateStore :=
  match store.lookup key with
  | none => (true, store.set key { count := 1, firstRequest := currentTime })
  | some entry =>
      let elapsedTime := currentTime - entry.firstRequest
      if elapsedTime > options.windowMs then
        (true, store.set key { count := 1, firstRequest := currentTime })
      else if entry.count < options.maxRequests then
        (true, store.set key { count := entry.count + 1, firstRequest := entry.firstRequest })
      else
        (false, store)

/-- Run a sequence of `checkRateLimit` calls (key, time pairs) from a
starting store, collecting the admit/deny answers in order. -/
def runRateCalls (options : RateLimitOptions) :
    RateStore → List (String × Nat) → List Bool × RateStore
  | store, [] => ([], store)
  | store, (key, t) :: rest =>
      let (admitted, store') := checkRateLimit store key options t
      let (answers, store'') := runRateCalls options store' rest
      (admitted :: answers, store'')

/-- Every entry of the store has `count ≤ bound`. -/
def StoreBounded (bound : Nat) (store : RateStore) : Prop :=
  ∀ p ∈ store, (Prod.snd p).count ≤ bound

instance (bound : Nat) (store : RateStore) : Decidable (StoreBounded bound store) :=
  inferInstanceAs (Decidable (∀ p ∈ store, (Prod.snd p).count ≤ bound))

/-! ## SSRF-safe URL validation (`security.ts`) -/

/-- A resolved IP address as handed to `isPrivateIp`: either a dotted-quad
IPv4 address (`isIP(ip) === 4`, four octets) or an IPv6 address
(`isIP(ip) === 6`, kept as its textual form since only string prefixes
are examined). -/
inductive IpAddr where
  | v4 (a b c d : Nat)
  | v6 (s : String)
deriving DecidableEq, Repr

/-- Model of `ipToNumber`: fold the octets with `(acc << 8) + octet`, then `>>> 0`
(unsigned 32-bit coercion, made explicit as `% 2 ^ 32`). -/
def ipToNumber (a b c d : Nat) : Nat :=
  (((a * 256 + b) * 256 + c) * 256 + d) % 2 ^ 32

/-- Model of `isPrivateIp` from `security.ts`: IPv4 addresses inside the five
hard-coded ranges, IPv6 addresses whose text starts with `fd` or `fe80`. -/
def isPrivateIp : IpAddr → Bool
  | .v4 a b c d =>
      let n := ipToNumber a b c d
      (ipToNumber 10 0 0 0 ≤ n && n ≤ ipToNumber 10 255 255 255) ||
      (ipToNumber 172 16 0 0 ≤ n && n ≤ ipToNumber 172 31 255 255) ||
      (ipToNumber 192 168 0 0 ≤ n && n ≤ ipToNumber 192 168 255 255) ||
      (ipToNumber 127 0 0 0 ≤ n && n ≤ ipToNumber 127 255 255 255) ||
      (ipToNumber 0 0 0 0 ≤ n && n ≤ ipToNumber 0 255 255 255)
  | .v6 s => s.startsWith "fd" || s.startsWith "fe80"

/-- Constant `ALLOWED_HOSTS` from `security.ts`. -/
def ALLOWED_HOSTS : List String := ["bsky.social"]

/-- The outcome of `new URL(url)` that `isValidUrl` inspects: `none` when
the constructor throws on a malformed input, otherwise the `protocol`
(with trailing colon, e.g. `"https:"`) and `hostname`. -/
structure ParsedUrl where
  protocol : String
  hostname : String
deriving DecidableEq, Repr

/-- Model of `isValidUrl` from `security.ts`. `parsed` is the result of URL
parsing and `dnsResult` the result of `dns.lookup(hostname, {all:true})`
(`none` = the lookup rejected). Every thrown error is caught and turned
into `false`, so the embedding is a total Boolean function. -/
def isValidUrl (parsed : Option ParsedUrl) (dnsResult : Option (List IpAddr)) : Bool :=
  match parsed with
  | none => false
  | some u =>
      if u.protocol ≠ "https:" then false
      else if ¬ (ALLOWED_HOSTS.contains u.hostname) then false
      else
        match dnsResult with
        | none => false
        | some addresses => addresses.all (fun addr => ! isPrivateIp addr)

/-! ## JS truthiness helpers -/

/-- Truthiness of a JS `string | null` value: `null` and the empty string are falsy. -/
def jsTruthyStr : Option String → Bool
  | some s => s ≠ ""
  | none => false

/-- Truthiness of a JS `number | null` value: `null` and `0` are falsy. -/
def jsTruthyNum : Option Nat → Bool
  | some n => n ≠ 0
  | none => false

/-- A JavaScript value sitting in boolean position: either an actual
boolean, or a Promise object — whose truthiness is `true` no matter what
it will eventually resolve to. -/
inductive JsValue where
  | bool (b : Bool)
  | promise (resolvesTo : Bool)
deriving DecidableEq, Repr

/-- JS truthiness of a `JsValue`. -/
def JsValue.truthy : JsValue → Bool
  | .bool b => b
  | .promise _ => true

/-! ## Token session (`oauth.ts`, the `TokenStorage`-backed draft) -/

/-- The token-endpoint response body `{access_token, refresh_token?,
expires_in?}` (the fields the client reads). -/
structure TokenResponse where
  access_token : String
  refresh_token : Option String
  expires_in : Option Nat
deriving DecidableEq, Repr

/-- Structure `TokenData` from `src/types.ts`: the durable per-user record. -/
structure TokenData where
  accessToken : Option String
  refreshToken : Option String
  tokenExpiresAt : Option Nat
deriving DecidableEq, Repr

/-- Model of `TokenStorage.saveTokens(userId, tokenData)`: the durable store,
modelled as an association list with last-write-wins per `userId`. -/
def saveTokens (storage : List (String × TokenData)) (userId : String) (d : TokenData) :
    List (String × TokenData) :=
  match storage with
  | [] => [(userId, d)]
  | (k, v) :: rest =>
      if k = userId then (k, d) :: rest else (k, v) :: saveTokens rest userId d

/-- Model of `TokenStorage.loadTokens(userId)`. -/
def loadTokens (storage : List (String × TokenData)) (userId : String) : Option TokenData :=
  (storage.find? (fun p => p.1 = userId)).map Prod.snd

/-- The mutable state of a `BlueskyOAuthClient` session: the in-memory
token fields plus the external durable store it writes through to. -/
structure Session where
  userId : String
  accessToken : Option String
  refreshToken : Option String
  tokenExpiresAt : Option Nat
  storage : List (String × TokenData)
deriving DecidableEq, Repr

/-- Model of `storeTokens(tokenResponse)`: set the in-memory fields
(`refresh_token || null` and `expires_in ? Date.now() + expires_in * 1000
: null`, JS truthiness made explicit) and write the record through to
`storage.saveTokens(this.userId, tokenData)`. `now` stands for
`Date.now()`. -/
def storeTokens (sess : Session) (now : Nat) (tr : TokenResponse) : Session :=
  let accessToken : Option String := some tr.access_token
  let refreshToken : Option String :=
    match tr.refresh_token with
    | some r => if r ≠ "" then some r else none
    | none => none
  let tokenExpiresAt : Option Nat :=
    match tr.expires_in with
    | some n => if n ≠ 0 then some (now + n * 1000) else none
    | none => none
  { sess with
    accessToken := accessToken
    refreshToken := refreshToken
    tokenExpiresAt := tokenExpiresAt
    storage := saveTokens sess.storage sess.userId
      { accessToken := accessToken, refreshToken := refreshToken,
        tokenExpiresAt := tokenExpiresAt } }

/-- Model of `handleCallback(code, codeVerifier)`: POST the code exchange to the
token endpoint; on success run `storeTokens` on the response body, on
failure throw `OAuthTokenRequestError` leaving the session untouched.
`httpResult` is the outcome of the `axios.post` round trip. -/
def handleCallback (sess : Session) (now : Nat) (httpResult : Except String TokenResponse) :
    Session × Except String Unit :=
  match httpResult with
  | .error e => (sess, .error ("Failed to exchange token: " ++ e))
  | .ok tokenResponse => (storeTokens sess now tokenResponse, .ok ())

/-- Model of `refreshAccessToken()`: POST `grant_type=refresh_token`; on success
run `storeTokens` on the response body, on failure throw
`OAuthTokenRequestError` leaving the session untouched. `httpResult` is
the outcome of the `axios.post` round trip. -/
def refreshAccessToken (sess : Session) (now : Nat)
    (httpResult : Except String TokenResponse) : Session × Except String Unit :=
  match httpResult with
  | .error e => (sess, .error ("Failed to refresh access token: " ++ e))
  | .ok tokenResponse => (storeTokens sess now tokenResponse, .ok ())

/-- A network round trip issued by `makeAuthenticatedRequest`: the refresh
POST to the token endpoint, or the protected-resource request with its
`Authorization` header value. -/
inductive NetCall where
  | refreshRequest
  | resourceRequest (method url authorizationHeader : String)
deriving DecidableEq, Repr

/-- The structurally distinct error kinds `makeAuthenticatedRequest` can
throw: `OAuthTokenError`, `OAuthTokenRequestError` (propagated from the
refresh), `OAuthServerError`. -/
inductive AuthErr where
  | tokenError (msg : String)
  | tokenRequestError (msg : String)
  | serverError (msg : String)
deriving DecidableEq, Repr

/-- The tail of `makeAuthenticatedRequest`: sign a DPoP proof and issue
the resource request with `Authorization: DPoP <token>`; a transport
failure becomes `OAuthServerError`. -/
def issueResource (sess : Session) (method url token : String)
    (resourceHttp : Except String String) (priorCalls : List NetCall) :
    Session × List NetCall × Except AuthErr String :=
  let calls := priorCalls ++ [NetCall.resourceRequest method url ("DPoP " ++ token)]
  match resourceHttp with
  | .ok data => (sess, calls, .ok data)
  | .error e =>
      (sess, calls, .error (.serverError ("Failed to make authenticated request: " ++ e)))

/-- Model of `makeAuthenticatedRequest(method, url, accessToken, data?)` from the
`TokenStorage`-backed draft: when the explicit `accessToken` argument is
falsy, fall back to the session token, refreshing first if it is past
`tokenExpiresAt` (token-error if no session token or no refresh token);
then issue the request. Returns the final session, the network calls
issued in order, and the result. `refreshHttp`/`resourceHttp` are the
outcomes of the two possible round trips. -/
def makeAuthenticatedRequest (sess : Session) (now : Nat) (method url : String)
    (accessToken : String) (refreshHttp : Except String TokenResponse)
    (resourceHttp : Except String String) :
    Session × List NetCall × Except AuthErr String :=
  if accessToken = "" then
    if jsTruthyStr sess.accessToken = false then
      (sess, [], .error (.tokenError "Access token is missing."))
    else if jsTruthyNum sess.tokenExpiresAt && decide (sess.tokenExpiresAt.getD 0 ≤ now) then
      if jsTruthyStr sess.refreshToken then
        match refreshAccessToken sess now refreshHttp with
        | (sess', .error e) =>
            (sess', [NetCall.refreshRequest], .error (.tokenRequestError e))
        | (sess', .ok _) =>
            issueResource sess' method url (sess'.accessToken.getD "") resourceHttp
              [NetCall.refreshRequest]
      else
        (sess, [], .error (.tokenError "Refresh token is missing."))
    else
      issueResource sess method url (sess.accessToken.getD "") resourceHttp []
  else
    issueResource sess method url accessToken resourceHttp []

/-! ## Authorization-URL path (`src/oath.ts`, second draft class) -/

/-- The Redis counter store behind `src/rateLimiter.ts`, keyed by the
rate-limit key. (The `pexpire` TTL only deletes keys as time passes; it
plays no part in the admit/deny decision of a single call, which is all the
claims touch, so key expiry is not modelled.) -/
abbrev RedisStore := List (String × Nat)

/-- Redis `INCR key`: bump the counter (creating it at 1 when absent) and
return its new value. -/
def redisIncr : RedisStore → String → RedisStore × Nat
  | [], key => ([(key, 1)], 1)
  | (k, v) :: rest, key =>
      if k = key then ((k, v + 1) :: rest, v + 1)
      else
        let (rest', n) := redisIncr rest key
        ((k, v) :: rest', n)

/-- Model of `checkRateLimit` from `src/rateLimiter.ts`: `INCR` then the comparison
`current <= maxRequests`. Being `async`, the function hands back a
*Promise* of that boolean, together with the updated store. -/
def redisCheckRateLimit (redis : RedisStore) (key : String) (options : RateLimitOptions) :
    RedisStore × JsValue :=
  let (redis', current) := redisIncr redis key
  (redis', JsValue.promise (current ≤ options.maxRequests))

/-- The characters `encodeURIComponent` leaves unescaped. -/
def jsUriUnescaped (c : Char) : Bool :=
  c.isAlpha || c.isDigit ||
  c = '-' || c = '_' || c = '.' || c = '!' || c = '~' || c = '*' ||
  c = Char.ofNat 39 || c = '(' || c = ')'

/-- Two upper-case hex digits of a byte. -/
def byteToHexUpper (b : Nat) : List Char :=
  let digits := "0123456789ABCDEF".toList
  [digits.getD (b / 16 % 16) 'X', digits.getD (b % 16) 'X']

/-- Model of `encodeURIComponent`, for the ASCII strings (PAR `request_uri`
handles) that flow through this client: unescaped characters are kept,
every other character is percent-encoded. -/
def encodeURIComponent (s : String) : String :=
  String.mk (s.toList.flatMap (fun c =>
    if jsUriUnescaped c then [c] else '%' :: byteToHexUpper c.toNat))

/-- Error kinds of the authorization-URL path: `RateLimitExceededError`,
`OAuthAuthorizationError`, `OAuthServerError`. -/
inductive AuthUrlErr where
  | rateLimitExceeded (msg : String)
  | authorizationError (msg : String)
  | serverError (msg : String)
deriving DecidableEq, Repr

/-- Which side effects a `getAuthorizationUrl` call performed after the
rate-limit gate: whether a PKCE verifier was generated and whether the
PAR POST went out. -/
structure AuthUrlEffects where
  verifierGenerated : Bool
  parPosted : Bool
deriving DecidableEq, Repr

/-- Model of `pushAuthorizationRequest(codeChallenge)`: gate the constant PAR
endpoint `https://bsky.social/oauth/par` through `isValidUrl` (its parse
always yields protocol `https:` and hostname `bsky.social`), then POST.
Returns whether the POST was issued and the `request_uri` or error.
`parDns` is the DNS-resolution outcome for `bsky.social`, `parHttp` the
outcome of the POST. -/
def pushAuthorizationRequest (parDns : Option (List IpAddr))
    (parHttp : Except String String) : Bool × Except AuthUrlErr String :=
  if isValidUrl (some { protocol := "https:", hostname := "bsky.social" }) parDns = false then
    (false, .error (.authorizationError "Invalid PAR endpoint URL."))
  else
    match parHttp with
    | .ok requestUri => (true, .ok requestUri)
    | .error e => (true, .error (.serverError ("Failed to push authorization request: " ++ e)))

/-- Model of `getAuthorizationUrl(userKey)` from the second `BlueskyOAuthClient`
draft in `src/oath.ts`: the `async` Redis `checkRateLimit` is called
*without* `await`, so `underLimit` holds the returned Promise object
itself — which is truthy — and `if (!underLimit)` tests the truthiness
of that Promise object, not the resolved boolean. On passing the gate, generate the
PKCE verifier (from `randomBytes`), push the PAR request, and build the
authorization URL. Returns the updated Redis store, the effects
performed, and the `{url, codeVerifier}` result or error. -/
def getAuthorizationUrl (redis : RedisStore) (userKey : String) (randomBytes : List Nat)
    (parDns : Option (List IpAddr)) (parHttp : Except String String) :
    RedisStore × AuthUrlEffects × Except AuthUrlErr (String × String) :=
  let rc := redisCheckRateLimit redis userKey { maxRequests := 10, windowMs := 60000 }
  let underLimit : JsValue := rc.2
  if underLimit.truthy = false then
    (rc.1, { verifierGenerated := false, parPosted := false },
      .error (.rateLimitExceeded "Rate limit exceeded. Please try again later."))
  else
    let codeVerifier := generateCodeVerifier randomBytes
    let par := pushAuthorizationRequest parDns parHttp
    match par.2 with
    | .error e => (rc.1, { verifierGenerated := true, parPosted := par.1 }, .error e)
    | .ok requestUri =>
        (rc.1, { verifierGenerated := true, parPosted := par.1 },
          .ok ("https://bsky.social/oauth/authorize?request_uri=" ++
                encodeURIComponent requestUri, codeVerifier))

/-! ## Helper lemmas -/

/-- Every character the base64url alphabet lookup can produce is an
unreserved character. -/
theorem b64urlChar_unreserved (n : Nat) : isUnreservedChar (b64urlChar n) = true := by
  unfold b64urlChar
  by_cases h : n < b64urlAlphabet.length
  · rw [List.getD_eq_getElem _ _ h]
    have hall : ∀ c ∈ b64urlAlphabet, isUnreservedChar c = true := by decide
    exact hall _ (List.getElem_mem h)
  · rw [List.getD_eq_default _ _ (Nat.le_of_not_lt h)]
    decide

/-- Length of an unpadded base64url encoding: four characters per full
3-byte group, plus two or three for a trailing group of one or two
bytes. -/
theorem b64urlEncode_length (bs : List Nat) :
    (b64urlEncode bs).length =
      4 * (bs.length / 3) + (if bs.length % 3 = 0 then 0 else bs.length % 3 + 1) := by
  induction bs using b64urlEncode.induct with
  | case1 => simp [b64urlEncode]
  | case2 b1 => simp [b64urlEncode]
  | case3 b1 b2 => simp [b64urlEncode]
  | case4 b1 b2 b3 rest ih =>
      simp only [b64urlEncode, List.length_cons, ih]
      have h3 : (rest.length + 3) / 3 = rest.length / 3 + 1 := by omega
      have h4 : (rest.length + 3) % 3 = rest.length % 3 := by omega
      simp [h3, h4]
      split <;> omega

/-- Every character of a base64url encoding is unreserved. -/
theorem b64urlEncode_unreserved (bs : List Nat) :
    ∀ c ∈ b64urlEncode bs, isUnreservedChar c = true := by
  induction bs using b64urlEncode.induct with
  | case1 => simp [b64urlEncode]
  | case2 b1 => simp [b64urlEncode, b64urlChar_unreserved]
  | case3 b1 b2 => simp [b64urlEncode, b64urlChar_unreserved]
  | case4 b1 b2 b3 rest ih =>
      simp [b64urlEncode, b64urlChar_unreserved]
      exact ih

/-- Both hex digits of a byte are unreserved characters. -/
theorem byteToHex_unreserved (b : Nat) :
    ∀ c ∈ byteToHex b, isUnreservedChar c = true := by
  have hall : ∀ c ∈ hexAlphabet, isUnreservedChar c = true := by decide
  have h1 : b / 16 % 16 < hexAlphabet.length := by
    simp [hexAlphabet]; omega
  have h2 : b % 16 < hexAlphabet.length := by
    simp [hexAlphabet]; omega
  intro c hc
  simp [byteToHex] at hc
  rcases hc with rfl | rfl
  · simp [List.getElem?_eq_getElem h1]
    exact hall _ (List.getElem_mem h1)
  · simp [List.getElem?_eq_getElem h2]
    exact hall _ (List.getElem_mem h2)

/-- A hex rendering has two characters per byte. -/
theorem toHexString_length (bs : List Nat) : (toHexString bs).length = 2 * bs.length := by
  unfold toHexString
  induction bs with
  | nil => simp
  | cons b rest ih => simp [byteToHex] at ih ⊢; omega

/-- Any entry of a store after a keyed assignment is either the assigned
entry or was already present. -/
theorem RateStore.mem_set {store : RateStore} {key : String} {e : RateEntry}
    {p : String × RateEntry} (hp : p ∈ RateStore.set store key e) :
    p.2 = e ∨ p ∈ store := by
  induction store with
  | nil =>
      simp [RateStore.set] at hp
      rw [hp]
      exact Or.inl rfl
  | cons hd tl ih =>
      obtain ⟨k, v⟩ := hd
      simp only [RateStore.set] at hp
      split at hp
      · rcases List.mem_cons.mp hp with h | htl
        · exact Or.inl (by rw [h])
        · exact Or.inr (List.mem_cons_of_mem _ htl)
      · rcases List.mem_cons.mp hp with h | htl
        · exact Or.inr (by rw [h]; exact List.mem_cons_self _ _)
        · rcases ih htl with h1 | h2
          · exact Or.inl h1
          · exact Or.inr (List.mem_cons_of_mem _ h2)

/-- The PKCE well-formedness predicate of the claim: length within
[43,128] and only unreserved characters. -/
def VerifierOk (v : String) : Prop :=
  43 ≤ v.length ∧ v.length ≤ 128 ∧ ∀ c ∈ v.toList, isUnreservedChar c = true

/-- Saving the record of a user and loading it back yields that record. -/
theorem loadTokens_saveTokens (storage : List (String × TokenData)) (userId : String)
    (d : TokenData) : loadTokens (saveTokens storage userId d) userId = some d := by
  induction storage with
  | nil => simp [saveTokens, loadTokens]
  | cons hd tl ih =>
      obtain ⟨k, v⟩ := hd
      by_cases h : k = userId
      · simp [saveTokens, loadTokens, h]
      · simp only [saveTokens, h, if_false]
        unfold loadTokens at ih ⊢
        rw [List.find?_cons_of_neg]
        · exact ih
        · simp [h]

/-- A session with its three in-memory token fields replaced. -/
def withTokenFields (sess : Session) (a r : Option String) (e : Option Nat) : Session :=
  { sess with accessToken := a, refreshToken := r, tokenExpiresAt := e }

/-! ## Theorems -/

/-- C1, counterexample: `generateDpopProof` does *not* strip the query
string from the `htu` claim — on a URL with a query, `htu` differs from
the scheme+host+path restriction of the spec. -/
theorem C1_htu_keeps_query_counterexample :
    (generateDpopProof "GET" "https://bsky.social/xrpc/app?cursor=1" "sk" "pk" "j1" 5).payload.htu
      ≠ spec_stripQueryFragment "https://bsky.social/xrpc/app?cursor=1" := by
  decide

/-- C1 (amended): for every HTTP method and target URL, the DPoP payload
produced by `generateDpopProof(method, url, ...)` carries an `htu` claim
equal to the target URL exactly as supplied — any query string or
fragment included, nothing removed — and an `htm` claim equal to the
method. -/
theorem C1_generateDpopProof_htu_htm (method url privateKey jwkPublic jti : String)
    (iat : Nat) :
    (generateDpopProof method url privateKey jwkPublic jti iat).payload.htu = url ∧
    (generateDpopProof method url privateKey jwkPublic jti iat).payload.htm = method :=
  ⟨rfl, rfl⟩

/-- C8: two DPoP proofs generated for the same method/URL pair in two
runs with distinct random identifiers have different `jti` values; when
their `iat` timestamps also differ, their (symbolic) signatures differ;
and in any case the two proofs are not replay-identical. -/
theorem C8_dpopProof_not_replay_identical (method url privateKey jwkPublic : String)
    (jti1 jti2 : String) (iat1 iat2 : Nat) (hjti : jti1 ≠ jti2) :
    (generateDpopProof method url privateKey jwkPublic jti1 iat1).payload.jti ≠
      (generateDpopProof method url privateKey jwkPublic jti2 iat2).payload.jti ∧
    (iat1 ≠ iat2 →
      (generateDpopProof method url privateKey jwkPublic jti1 iat1).signature ≠
        (generateDpopProof method url privateKey jwkPublic jti2 iat2).signature) ∧
    generateDpopProof method url privateKey jwkPublic jti1 iat1 ≠
      generateDpopProof method url privateKey jwkPublic jti2 iat2 := by
  refine ⟨hjti, fun hiat hsig => ?_, fun hproof => ?_⟩
  · exact hiat (congrArg (fun s => s.signedPayload.iat) hsig)
  · exact hjti (congrArg (fun p => p.payload.jti) hproof)

/-- Witness for C8 at concrete inputs. -/
theorem C8_dpopProof_not_replay_identical_witness :
    ("a" : String) ≠ "b" ∧
    ((generateDpopProof "GET" "https://bsky.social/u" "sk" "pk" "a" 1).payload.jti ≠
        (generateDpopProof "GET" "https://bsky.social/u" "sk" "pk" "b" 2).payload.jti ∧
      ((1 : Nat) ≠ 2 →
        (generateDpopProof "GET" "https://bsky.social/u" "sk" "pk" "a" 1).signature ≠
          (generateDpopProof "GET" "https://bsky.social/u" "sk" "pk" "b" 2).signature) ∧
      generateDpopProof "GET" "https://bsky.social/u" "sk" "pk" "a" 1 ≠
        generateDpopProof "GET" "https://bsky.social/u" "sk" "pk" "b" 2) :=
  ⟨by decide,
   C8_dpopProof_not_replay_identical "GET" "https://bsky.social/u" "sk" "pk" "a" "b" 1 2
     (by decide)⟩

/-- C9: every code verifier produced from the 32 bytes (= 256 bits) of
cryptographically random input that `crypto.randomBytes(32)` supplies has
length within [43,128] and consists only of unreserved PKCE characters —
for both drafts of `generateCodeVerifier` in `src/pkce.ts` (base64url and
hex encodings). -/
theorem C9_codeVerifier_spec (randomBytes : List Nat)
    (hlen : randomBytes.length = 32) :
    8 * randomBytes.length = 256 ∧
    VerifierOk (generateCodeVerifier randomBytes) ∧
    VerifierOk (generateCodeVerifierHex randomBytes) := by
  have henc : (b64urlEncode randomBytes).length = 43 := by
    rw [b64urlEncode_length, hlen]
    decide
  have htake : (b64urlEncode randomBytes).take 128 = b64urlEncode randomBytes :=
    List.take_of_length_le (by omega)
  have hblen : (generateCodeVerifier randomBytes).length = 43 := by
    simp [generateCodeVerifier, String.length, htake, henc]
  have hhlen : (generateCodeVerifierHex randomBytes).length = 64 := by
    have := toHexString_length randomBytes
    simp [generateCodeVerifierHex, hlen] at this ⊢
    omega
  refine ⟨by omega, ⟨by omega, by omega, ?_⟩, ⟨by omega, by omega, ?_⟩⟩
  · intro c hc
    simp [generateCodeVerifier, String.toList, htake] at hc
    exact b64urlEncode_unreserved randomBytes c hc
  · intro c hc
    simp [generateCodeVerifierHex, toHexString, String.toList] at hc
    rcases hc with ⟨b, hb, hcb⟩
    exact byteToHex_unreserved b c hcb

/-- Witness for C9 at a concrete 32-byte input. -/
theorem C9_codeVerifier_spec_witness :
    (List.replicate 32 7).length = 32 ∧
    (8 * (List.replicate 32 7).length = 256 ∧
      VerifierOk (generateCodeVerifier (List.replicate 32 7)) ∧
      VerifierOk (generateCodeVerifierHex (List.replicate 32 7))) :=
  ⟨by decide, C9_codeVerifier_spec (List.replicate 32 7) (by decide)⟩

/-- C3: the fixed-window `checkRateLimit` keeps every stored counter at
or below `maxRequests` (for any positive limit), and with
`{maxRequests: 3, windowMs: 1000}` it admits the first three calls within
1000ms of the first, denies the fourth inside the window, and admits a
call arriving after 1000ms have elapsed, resetting the window of that key. -/
theorem C3_checkRateLimit_spec (store : RateStore) (key : String)
    (options : RateLimitOptions) (currentTime : Nat)
    (hmax : 1 ≤ options.maxRequests) (hinv : StoreBounded options.maxRequests store) :
    StoreBounded options.maxRequests (checkRateLimit store key options currentTime).2 ∧
    (runRateCalls ⟨3, 1000⟩ [] [("k", 0), ("k", 10), ("k", 500), ("k", 999), ("k", 1001)]).1
      = [true, true, true, false, true] ∧
    (runRateCalls ⟨3, 1000⟩ [] [("k", 0), ("k", 10), ("k", 500), ("k", 999), ("k", 1001)]).2
      = [("k", ⟨1, 1001⟩)] := by
  refine ⟨?_, by decide, by decide⟩
  unfold checkRateLimit
  cases hlook : store.lookup key with
  | none =>
      intro p hp
      simp at hp
      rcases RateStore.mem_set hp with h | h
      · rw [h]; exact hmax
      · exact hinv p h
  | some entry =>
      have hentry : entry.count ≤ options.maxRequests := by
        unfold RateStore.lookup at hlook
        cases hfind : store.find? (fun p => p.1 = key) with
        | none => rw [hfind] at hlook; simp at hlook
        | some pr =>
            rw [hfind] at hlook
            simp at hlook
            have := hinv pr (List.mem_of_find?_eq_some hfind)
            rw [hlook] at this
            exact this
      simp only
      split
      · intro p hp
        simp at hp
        rcases RateStore.mem_set hp with h | h
        · rw [h]; exact hmax
        · exact hinv p h
      · split
        · intro p hp
          simp at hp
          rcases RateStore.mem_set hp with h | h
          · rw [h]
            show entry.count + 1 ≤ options.maxRequests
            omega
          · exact hinv p h
        · intro p hp
          simp at hp
          exact hinv p hp

/-- Witness for C3 at a concrete store, key, options and time. -/
theorem C3_checkRateLimit_spec_witness :
    (1 ≤ (3 : Nat) ∧ StoreBounded 3 [("k", ⟨2, 0⟩)]) ∧
    (StoreBounded 3 (checkRateLimit [("k", ⟨2, 0⟩)] "k" ⟨3, 1000⟩ 5).2 ∧
      (runRateCalls ⟨3, 1000⟩ [] [("k", 0), ("k", 10), ("k", 500), ("k", 999), ("k", 1001)]).1
        = [true, true, true, false, true] ∧
      (runRateCalls ⟨3, 1000⟩ [] [("k", 0), ("k", 10), ("k", 500), ("k", 999), ("k", 1001)]).2
        = [("k", ⟨1, 1001⟩)]) :=
  ⟨⟨by decide, by decide⟩,
   C3_checkRateLimit_spec [("k", ⟨2, 0⟩)] "k" ⟨3, 1000⟩ 5 (by decide) (by decide)⟩

/-- C4: `isValidUrl` — a total Boolean function, so it never throws —
returns false when the URL is malformed (parse failure), when the scheme
is not exactly HTTPS, when the host is outside the allow-list, when DNS
resolution fails, and when any resolved address is private; it returns
true for an HTTPS allow-listed host resolving only to public addresses.
The last two conjuncts identify the numeric ranges of the code with the
CIDR/prefix characterization of the claim (IPv4 10/8, 172.16/12, 192.168/16,
127/8, 0/8; IPv6 `fd`/`fe80` prefixes). -/
theorem C4_isValidUrl_spec :
    (∀ dnsResult, isValidUrl none dnsResult = false) ∧
    (∀ u dnsResult, u.protocol ≠ "https:" → isValidUrl (some u) dnsResult = false) ∧
    (∀ u dnsResult, u.hostname ∉ ALLOWED_HOSTS → isValidUrl (some u) dnsResult = false) ∧
    (∀ u, isValidUrl (some u) none = false) ∧
    (∀ u addrs, (∃ a ∈ addrs, isPrivateIp a = true) →
        isValidUrl (some u) (some addrs) = false) ∧
    (∀ u addrs, u.protocol = "https:" → u.hostname ∈ ALLOWED_HOSTS →
        (∀ a ∈ addrs, isPrivateIp a = false) → isValidUrl (some u) (some addrs) = true) ∧
    (∀ a b c d, a < 256 → b < 256 → c < 256 → d < 256 →
        (isPrivateIp (.v4 a b c d) = true ↔
          a = 10 ∨ (a = 172 ∧ 16 ≤ b ∧ b ≤ 31) ∨ (a = 192 ∧ b = 168) ∨ a = 127 ∨ a = 0)) ∧
    (∀ s, isPrivateIp (.v6 s) = true ↔
        (s.startsWith "fd" = true ∨ s.startsWith "fe80" = true)) := by
  refine ⟨fun dns => rfl, ?_, ?_, ?_, ?_, ?_, ?_, ?_⟩
  · intro u dns h
    simp [isValidUrl, h]
  · intro u dns h
    simp [isValidUrl]
    intro _ hmem
    exact absurd hmem h
  · intro u
    simp [isValidUrl]
  · intro u addrs ⟨a, ha, hpriv⟩
    simp [isValidUrl]
    intro hproto hhost
    exact ⟨a, ha, hpriv⟩
  · intro u addrs hproto hhost hall
    simp [isValidUrl, hproto]
    exact ⟨hhost, hall⟩
  · intro a b c d ha hb hc hd
    have h32 : (2 : Nat) ^ 32 = 4294967296 := by norm_num
    have hlt : ((a * 256 + b) * 256 + c) * 256 + d < 4294967296 := by omega
    simp only [isPrivateIp, ipToNumber, h32, Bool.or_eq_true, Bool.and_eq_true,
      decide_eq_true_eq, Nat.mod_eq_of_lt hlt]
    omega
  · intro s
    simp [isPrivateIp]

/-- Witness for C4 at concrete URLs, hosts and DNS results. -/
theorem C4_isValidUrl_spec_witness :
    (("http:" : String) ≠ "https:" ∧
      isValidUrl (some ⟨"http:", "bsky.social"⟩) (some [IpAddr.v4 1 1 1 1]) = false) ∧
    ((("evil.example" : String) ∉ ALLOWED_HOSTS) ∧
      isValidUrl (some ⟨"https:", "evil.example"⟩) (some [IpAddr.v4 1 1 1 1]) = false) ∧
    ((∃ a ∈ [IpAddr.v4 10 0 0 1], isPrivateIp a = true) ∧
      isValidUrl (some ⟨"https:", "bsky.social"⟩) (some [IpAddr.v4 10 0 0 1]) = false) ∧
    isValidUrl (some ⟨"https:", "bsky.social"⟩) (some [IpAddr.v4 93 184 216 34]) = true ∧
    (isPrivateIp (IpAddr.v4 192 168 0 5) = true ↔
      (192 : Nat) = 10 ∨ ((192 : Nat) = 172 ∧ 16 ≤ (168 : Nat) ∧ (168 : Nat) ≤ 31) ∨
      ((192 : Nat) = 192 ∧ (168 : Nat) = 168) ∨ (192 : Nat) = 127 ∨ (192 : Nat) = 0) ∧
    (isPrivateIp (IpAddr.v6 "fe80::1") = true ↔
      ("fe80::1".startsWith "fd" = true ∨ "fe80::1".startsWith "fe80" = true)) :=
  ⟨⟨by decide,
    C4_isValidUrl_spec.2.1 ⟨"http:", "bsky.social"⟩ (some [IpAddr.v4 1 1 1 1]) (by decide)⟩,
   ⟨by decide,
    C4_isValidUrl_spec.2.2.1 ⟨"https:", "evil.example"⟩ (some [IpAddr.v4 1 1 1 1]) (by decide)⟩,
   ⟨⟨IpAddr.v4 10 0 0 1, by decide, by decide⟩,
    C4_isValidUrl_spec.2.2.2.2.1 ⟨"https:", "bsky.social"⟩ [IpAddr.v4 10 0 0 1]
      ⟨IpAddr.v4 10 0 0 1, by decide, by decide⟩⟩,
   C4_isValidUrl_spec.2.2.2.2.2.1 ⟨"https:", "bsky.social"⟩ [IpAddr.v4 93 184 216 34]
     rfl (by decide) (by decide),
   C4_isValidUrl_spec.2.2.2.2.2.2.1 192 168 0 5 (by decide) (by decide) (by decide) (by decide),
   C4_isValidUrl_spec.2.2.2.2.2.2.2 "fe80::1"⟩

/-- C5, counterexample: on a successful token response carrying
`expires_in = 0`, the claim as stated demands a stored expiry of
`now + 0 * 1000`, but JS truthiness (`expires_in ? ... : null`) makes the
code store *no* expiry (`null`). -/
theorem C5_expiresIn_zero_counterexample :
    (handleCallback ⟨"u1", none, none, none, []⟩ 1000
        (.ok ⟨"AT", some "RT", some 0⟩)).1.tokenExpiresAt = none ∧
    (handleCallback ⟨"u1", none, none, none, []⟩ 1000
        (.ok ⟨"AT", some "RT", some 0⟩)).1.tokenExpiresAt ≠ some (1000 + 0 * 1000) := by
  decide

/-- C5 (amended): on every successful token-endpoint response,
`handleCallback` stores expiry `now + expires_in * 1000` when
`expires_in` is present and nonzero, and no expiry (`null`) when it is
absent — or, by JS truthiness, zero; it updates the in-memory
access/refresh token fields and writes the complete record through to the
token store keyed by the `userId` of the session. -/
theorem C5_handleCallback_stores_tokens (sess : Session) (now : Nat) (tr : TokenResponse) :
    (handleCallback sess now (.ok tr)).2 = .ok () ∧
    (handleCallback sess now (.ok tr)).1.accessToken = some tr.access_token ∧
    (∀ n, tr.expires_in = some n → n ≠ 0 →
      (handleCallback sess now (.ok tr)).1.tokenExpiresAt = some (now + n * 1000)) ∧
    (tr.expires_in = none ∨ tr.expires_in = some 0 →
      (handleCallback sess now (.ok tr)).1.tokenExpiresAt = none) ∧
    (∀ r, tr.refresh_token = some r → r ≠ "" →
      (handleCallback sess now (.ok tr)).1.refreshToken = some r) ∧
    (handleCallback sess now (.ok tr)).1.userId = sess.userId ∧
    loadTokens (handleCallback sess now (.ok tr)).1.storage sess.userId =
      some ⟨(handleCallback sess now (.ok tr)).1.accessToken,
            (handleCallback sess now (.ok tr)).1.refreshToken,
            (handleCallback sess now (.ok tr)).1.tokenExpiresAt⟩ := by
  refine ⟨rfl, rfl, ?_, ?_, ?_, rfl, ?_⟩
  · intro n hn hn0
    simp [handleCallback, storeTokens, hn, hn0]
  · intro h
    rcases h with h | h <;> simp [handleCallback, storeTokens, h]
  · intro r hr hr0
    simp [handleCallback, storeTokens, hr, hr0]
  · simp [handleCallback, storeTokens]
    exact loadTokens_saveTokens _ _ _

/-- Witness for C5 (amended) at a concrete session and token response. -/
theorem C5_handleCallback_stores_tokens_witness :
    (handleCallback ⟨"u1", none, none, none, []⟩ 1000
        (.ok ⟨"AT1", some "RT1", some 3600⟩)).2 = .ok () ∧
    (handleCallback ⟨"u1", none, none, none, []⟩ 1000
        (.ok ⟨"AT1", some "RT1", some 3600⟩)).1.accessToken = some "AT1" ∧
    (handleCallback ⟨"u1", none, none, none, []⟩ 1000
        (.ok ⟨"AT1", some "RT1", some 3600⟩)).1.tokenExpiresAt = some (1000 + 3600 * 1000) ∧
    (handleCallback ⟨"u1", none, none, none, []⟩ 1000
        (.ok ⟨"AT1", some "RT1", some 3600⟩)).1.refreshToken = some "RT1" ∧
    loadTokens (handleCallback ⟨"u1", none, none, none, []⟩ 1000
        (.ok ⟨"AT1", some "RT1", some 3600⟩)).1.storage "u1" =
      some ⟨(handleCallback ⟨"u1", none, none, none, []⟩ 1000
               (.ok ⟨"AT1", some "RT1", some 3600⟩)).1.accessToken,
            (handleCallback ⟨"u1", none, none, none, []⟩ 1000
               (.ok ⟨"AT1", some "RT1", some 3600⟩)).1.refreshToken,
            (handleCallback ⟨"u1", none, none, none, []⟩ 1000
               (.ok ⟨"AT1", some "RT1", some 3600⟩)).1.tokenExpiresAt⟩ :=
  ⟨(C5_handleCallback_stores_tokens ⟨"u1", none, none, none, []⟩ 1000
      ⟨"AT1", some "RT1", some 3600⟩).1,
   (C5_handleCallback_stores_tokens ⟨"u1", none, none, none, []⟩ 1000
      ⟨"AT1", some "RT1", some 3600⟩).2.1,
   (C5_handleCallback_stores_tokens ⟨"u1", none, none, none, []⟩ 1000
      ⟨"AT1", some "RT1", some 3600⟩).2.2.1 3600 rfl (by decide),
   (C5_handleCallback_stores_tokens ⟨"u1", none, none, none, []⟩ 1000
      ⟨"AT1", some "RT1", some 3600⟩).2.2.2.2.1 "RT1" rfl (by decide),
   (C5_handleCallback_stores_tokens ⟨"u1", none, none, none, []⟩ 1000
      ⟨"AT1", some "RT1", some 3600⟩).2.2.2.2.2.2⟩

/-- C6: when the refresh round trip fails, every in-memory token field
and the durable record of every user are exactly as before the call, and
the error is propagated to the caller. -/
theorem C6_refresh_failure_noop (sess : Session) (now : Nat) (e : String) :
    (refreshAccessToken sess now (.error e)).1.accessToken = sess.accessToken ∧
    (refreshAccessToken sess now (.error e)).1.refreshToken = sess.refreshToken ∧
    (refreshAccessToken sess now (.error e)).1.tokenExpiresAt = sess.tokenExpiresAt ∧
    (∀ userId, loadTokens (refreshAccessToken sess now (.error e)).1.storage userId
        = loadTokens sess.storage userId) ∧
    (refreshAccessToken sess now (.error e)).2
      = .error ("Failed to refresh access token: " ++ e) :=
  ⟨rfl, rfl, rfl, fun _ => rfl, rfl⟩

/-- C7: a session whose stored token is expired (`tokenExpiresAt` truthy
and past) and whose `refreshToken` is null fails
`makeAuthenticatedRequest` (without an explicit token) with the
token-missing `OAuthTokenError` — issuing no network call at all and
leaving the session unchanged. -/
theorem C7_expired_without_refreshToken (sess : Session) (now : Nat) (method url : String)
    (refreshHttp : Except String TokenResponse) (resourceHttp : Except String String)
    (haccess : jsTruthyStr sess.accessToken = true)
    (hexpiry : jsTruthyNum sess.tokenExpiresAt = true)
    (hpast : sess.tokenExpiresAt.getD 0 ≤ now)
    (hnorefresh : sess.refreshToken = none) :
    makeAuthenticatedRequest sess now method url "" refreshHttp resourceHttp
      = (sess, [], .error (.tokenError "Refresh token is missing.")) := by
  obtain ⟨s, hs, hsne⟩ : ∃ s, sess.accessToken = some s ∧ s ≠ "" := by
    cases h : sess.accessToken with
    | none => rw [h] at haccess; simp [jsTruthyStr] at haccess
    | some s =>
        refine ⟨s, rfl, ?_⟩
        rw [h] at haccess
        simpa [jsTruthyStr] using haccess
  simp [makeAuthenticatedRequest, hs, hsne, hexpiry, hpast, hnorefresh, jsTruthyStr]

/-- Witness for C7 at a concrete expired session without refresh token. -/
theorem C7_expired_without_refreshToken_witness :
    (jsTruthyStr (some "AT") = true ∧ jsTruthyNum (some 100) = true ∧
      ((some 100 : Option Nat).getD 0 ≤ 200) ∧
      ((⟨"u", some "AT", none, some 100, []⟩ : Session).refreshToken = none)) ∧
    makeAuthenticatedRequest ⟨"u", some "AT", none, some 100, []⟩ 200 "GET" "https://api" ""
        (.ok ⟨"A2", some "R2", some 60⟩) (.ok "profile")
      = (⟨"u", some "AT", none, some 100, []⟩, [],
         .error (.tokenError "Refresh token is missing.")) :=
  ⟨⟨by decide, by decide, by decide, rfl⟩,
   C7_expired_without_refreshToken ⟨"u", some "AT", none, some 100, []⟩ 200 "GET"
     "https://api" (.ok ⟨"A2", some "R2", some 60⟩) (.ok "profile")
     (by decide) (by decide) (by decide) rfl⟩

/-- C10: with a non-empty explicit access token, `makeAuthenticatedRequest`
leaves the session untouched, issues exactly the one resource request —
signed with precisely the supplied token, never a refresh — and its
network calls and result do not depend on the stored token
fields, the clock, or the refresh round-trip outcome: the stored token
state is neither consulted nor modified. -/
theorem C10_explicit_token_frame (sess : Session) (now : Nat)
    (method url accessToken : String) (refreshHttp : Except String TokenResponse)
    (resourceHttp : Except String String) (htok : accessToken ≠ "") :
    (makeAuthenticatedRequest sess now method url accessToken refreshHttp resourceHttp).1
      = sess ∧
    (makeAuthenticatedRequest sess now method url accessToken refreshHttp resourceHttp).2.1
      = [NetCall.resourceRequest method url ("DPoP " ++ accessToken)] ∧
    (∀ (a r : Option String) (t : Option Nat) (rh : Except String TokenResponse)
        (now2 : Nat),
      (makeAuthenticatedRequest (withTokenFields sess a r t) now2 method url accessToken
          rh resourceHttp).2
        = (makeAuthenticatedRequest sess now method url accessToken refreshHttp
            resourceHttp).2) := by
  have hred : ∀ (s : Session) (n : Nat) (rh : Except String TokenResponse),
      makeAuthenticatedRequest s n method url accessToken rh resourceHttp
        = issueResource s method url accessToken resourceHttp [] := by
    intro s n rh
    simp [makeAuthenticatedRequest, htok]
  refine ⟨?_, ?_, ?_⟩
  · rw [hred]
    cases resourceHttp <;> rfl
  · rw [hred]
    cases resourceHttp <;> rfl
  · intro a r t rh now2
    rw [hred, hred]
    cases resourceHttp <;> rfl

/-- Witness for C10 at a concrete session and explicit token. -/
theorem C10_explicit_token_frame_witness :
    ("EXPLICIT" : String) ≠ "" ∧
    (makeAuthenticatedRequest ⟨"u", some "AT", some "RT", some 100, []⟩ 200 "GET"
        "https://api" "EXPLICIT" (.ok ⟨"A2", some "R2", some 60⟩) (.ok "profile")).1
      = ⟨"u", some "AT", some "RT", some 100, []⟩ ∧
    (makeAuthenticatedRequest ⟨"u", some "AT", some "RT", some 100, []⟩ 200 "GET"
        "https://api" "EXPLICIT" (.ok ⟨"A2", some "R2", some 60⟩) (.ok "profile")).2.1
      = [NetCall.resourceRequest "GET" "https://api" "DPoP EXPLICIT"] :=
  ⟨by decide,
   (C10_explicit_token_frame ⟨"u", some "AT", some "RT", some 100, []⟩ 200 "GET"
      "https://api" "EXPLICIT" (.ok ⟨"A2", some "R2", some 60⟩) (.ok "profile")
      (by decide)).1,
   (C10_explicit_token_frame ⟨"u", some "AT", some "RT", some 100, []⟩ 200 "GET"
      "https://api" "EXPLICIT" (.ok ⟨"A2", some "R2", some 60⟩) (.ok "profile")
      (by decide)).2.1⟩

/-- C2 (the code evaluated at the failing input): with the Redis counter
for `"user1"` already at the limit of 10 in the current window, the Redis
`checkRateLimit` resolves to `false`; yet `getAuthorizationUrl` never
awaits that promise, a Promise object is truthy, so no rate-limit error
is raised at the failing input — the PKCE verifier is generated and the
PAR request is issued — and (last conjunct) the rate-limit error is
unreachable for *every* input. -/
theorem C2_rateLimit_gate_ineffective :
    (redisCheckRateLimit [("user1", 10)] "user1" ⟨10, 60000⟩).2 = JsValue.promise false ∧
    (getAuthorizationUrl [("user1", 10)] "user1" (List.replicate 32 0)
        (some [IpAddr.v4 1 1 1 1]) (.ok "urn:par:req1")).2.1
      = ⟨true, true⟩ ∧
    (getAuthorizationUrl [("user1", 10)] "user1" (List.replicate 32 0)
        (some [IpAddr.v4 1 1 1 1]) (.ok "urn:par:req1")).2.2
      = .ok ("https://bsky.social/oauth/authorize?request_uri=urn%3Apar%3Areq1",
             generateCodeVerifier (List.replicate 32 0)) ∧
    (∀ (redis : RedisStore) (userKey : String) (randomBytes : List Nat)
        (parDns : Option (List IpAddr)) (parHttp : Except String String) (msg : String),
      (getAuthorizationUrl redis userKey randomBytes parDns parHttp).2.2
        ≠ .error (.rateLimitExceeded msg)) := by
  refine ⟨by decide, by decide, by decide, ?_⟩
  intro redis userKey randomBytes parDns parHttp msg
  have hpar : ∀ msg2 : String, (pushAuthorizationRequest parDns parHttp).2
      ≠ .error (.rateLimitExceeded msg2) := by
    intro msg2
    unfold pushAuthorizationRequest
    split
    · simp
    · cases parHttp <;> simp
  rcases hri : redisIncr redis userKey with ⟨r1, c1⟩
  simp only [getAuthorizationUrl, redisCheckRateLimit, hri, JsValue.truthy]
  cases hp : (pushAuthorizationRequest parDns parHttp).2 with
  | ok u => simp [hp]
  | error e =>
      simp [hp]
      intro hcontra
      exact hpar msg (by rw [hp, hcontra])

end BlueskyOAuth
